import Mathlib

set_option maxRecDepth 100000

/-!
Shallow embedding of `src/vicon.py` (the `ViconWrapper` / `VirtualViconWrapper`
acquisition loops) and `src/latency_analyse.py` (the offline latency analyzer),
together with proofs settling the specification claims.

Modelling conventions:
* Python floats are embedded as `ℚ`.
* The external Vicon datastream client (`pyvicon_datastream`) is an oracle: the
  values its query methods return during one loop iteration are collected in a
  `FrameData` record, and a whole streaming phase is a list of per-iteration
  oracle answers.  `none` in place of a `FrameData` models `client.get_frame()`
  returning false (the loop then sleeps and retries; no observable output).
* The consumer callback is pure; it is modelled by the two call shapes used in
  the source (with and without rotation arguments).
* Observable effects (records appended to `self.position_log`, latency log
  lines, occlusion warnings, the final `json.dump`, `client.disconnect()`) are
  collected in result structures.
-/

/-- Oracle answers of the `pyvicon_datastream` client for one successful
`client.get_frame()` iteration of `ViconWrapper.run` (src/vicon.py lines
61-109).  Each field is the return value of the corresponding client call,
should the loop body perform it. -/
structure FrameData where
  /-- `client.get_frame_number()` (line 62). -/
  frameNum : Nat
  /-- `client.get_subject_count()` (line 66, labeled mode). -/
  subjectCount : Option Int
  /-- `client.get_unlabeled_marker_count()` (line 69, unlabeled mode). -/
  unlabeledCount : Option Int
  /-- `client.get_subject_name(0)` (line 77); `none` models Python `None`. -/
  subjectName : Option String
  /-- `client.get_segment_global_translation(...)` (line 81). -/
  segTranslation : Option (ℚ × ℚ × ℚ)
  /-- `client.get_segment_global_rotation_euler_xyz(...)` (line 82). -/
  segRotation : Option (ℚ × ℚ × ℚ)
  /-- `client.get_unlabeled_marker_global_translation(0)` (line 84). -/
  unlabeledTranslation : Option (ℚ × ℚ × ℚ)
  /-- `client.get_latency_total()` (line 104), in seconds. -/
  latencyTotal : ℚ

/-- The consumer callback (`self.callback`), modelled by its two call shapes in
`ViconWrapper.run`: with rotation (line 98, arguments `x y z r0 r1 r2
timestamp`) and without (line 100, arguments `x y z timestamp`).  The return
value is `fc_latency`. -/
structure Callback where
  withRot : ℚ → ℚ → ℚ → ℚ → ℚ → ℚ → ℚ → ℚ
  noRot : ℚ → ℚ → ℚ → ℚ → ℚ

/-- One entry of `self.position_log`.  The dict literal written by
`ViconWrapper.run` (lines 89-93) has exactly the keys `frame_id`, `tvec`,
`time`; `VirtualViconWrapper.run` (lines 152-157) additionally writes `vel`.
No `rvec` key appears anywhere in the source, so the optional `rvec` field of
this model (present so that the spec's claimed optional orientation field can
be stated) is constantly `none`. -/
structure Record where
  frame_id : Nat
  tvec : ℚ × ℚ × ℚ
  rvec : Option (ℚ × ℚ × ℚ)
  vel : Option (ℚ × ℚ × ℚ)
  time : ℚ
  deriving DecidableEq

/-- Python truthiness of `subject_name` in `if subject_name:` (line 78):
`None` and the empty string are falsy. -/
def pyTruthy (s : Option String) : Bool :=
  match s with
  | none => false
  | some str => !str.isEmpty

/-- Pose extraction of one loop body iteration (src/vicon.py lines 73-84):
returns the `(translation, rotation)` pair as left by the
`if self.labeled_object: ... else: ...` block.  Both start as `None`; in
labeled mode they are assigned only under `if subject_name:`; in unlabeled
mode only `translation` is assigned. -/
def extractPose (labeled : Bool) (fd : FrameData) : Option (ℚ × ℚ × ℚ) × Option (ℚ × ℚ × ℚ) :=
  if labeled then
    if pyTruthy fd.subjectName then (fd.segTranslation, fd.segRotation) else (none, none)
  else
    (fd.unlabeledTranslation, none)

/-- The `fc_latency` value after lines 94-100: initialised to `0.0`, then
overwritten by the callback's return value when `callable(self.callback)`,
passing rotation arguments exactly when `rotation is not None`. -/
def fcLatencyOf (cb : Option Callback) (x y z : ℚ) (rot : Option (ℚ × ℚ × ℚ)) (t : ℚ) : ℚ :=
  match cb with
  | none => 0
  | some f =>
    match rot with
    | some (r0, r1, r2) => f.withRot x y z r0 r1 r2 t
    | none => f.noRot x y z t

/-- Observable output of one iteration of the streaming loop: records appended
to `self.position_log`, latency-accounting log lines (line 105) as triples
`(total, fc_latency, vicon_latency_ms)`, and the number of occlusion warnings
(line 109). -/
structure IterOut where
  recs : List Record
  lines : List (ℚ × ℚ × ℚ)
  warns : Nat
  deriving DecidableEq

/-- One iteration of the `while self.running:` body of `ViconWrapper.run`
(src/vicon.py lines 60-112).  `d = none` is `client.get_frame()` returning
false (line 111: `time.sleep(1/50)`, no output).  `t` is the value
`time.time()` returns at line 87. -/
def streamIter (labeled : Bool) (cb : Option Callback) (d : Option FrameData) (t : ℚ) : IterOut :=
  match d with
  | none => ⟨[], [], 0⟩
  | some fd =>
    -- line 65-70: object_count from the mode-dependent client call
    let object_count := if labeled then fd.subjectCount else fd.unlabeledCount
    -- line 72: `if object_count is not None and object_count == 1:`
    if object_count = some 1 then
      match extractPose labeled fd with
      | (some (x, y, z), rotation) =>
        -- lines 87-93: append the record (keys frame_id, tvec, time only)
        let r : Record :=
          { frame_id := fd.frameNum, tvec := (x, y, z), rvec := none, vel := none,
            time := t * 1000 }
        -- lines 94-100: fc_latency from the callback
        let fc := fcLatencyOf cb x y z rotation t
        -- lines 103-105: latency-accounting line only when fc_latency > 0
        let ls := if 0 < fc then [(fc + fd.latencyTotal * 1000, fc, fd.latencyTotal * 1000)] else []
        ⟨[r], ls, 0⟩
      | (none, _) =>
        -- line 108-109: `self.logger.warning("Position (mm): Occluded or no data")`
        ⟨[], [], 1⟩
    else
      -- count missing or ≠ 1: the body does nothing further this iteration
      ⟨[], [], 0⟩

/-- The whole streaming phase: the loop body applied to each oracle answer in
turn; `self.position_log` is append-only, so the final observables are the
concatenation of the per-iteration outputs. -/
def streamLoop (labeled : Bool) (cb : Option Callback) : List (Option FrameData × ℚ) → IterOut
  | [] => ⟨[], [], 0⟩
  | (d, t) :: rest =>
    let o := streamIter labeled cb d t
    let o' := streamLoop labeled cb rest
    ⟨o.recs ++ o'.recs, o.lines ++ o'.lines, o.warns + o'.warns⟩

/-- How the streaming phase ended: the running flag was cleared (`stop()`), a
`KeyboardInterrupt` arrived (caught at line 114), or some other exception was
raised (caught at line 116). -/
inductive ExitKind
  | normalStop
  | keyboardInterrupt
  | unexpectedError
  deriving DecidableEq

/-- The two externally visible cleanup steps of the `finally` block of
`ViconWrapper.run` (lines 119-129): the `json.dump` persistence attempt
(lines 120-124) and the guarded `client.disconnect()` (lines 127-128). -/
inductive CleanupAction
  | persistAttempt
  | disconnectCall
  deriving DecidableEq, BEq

/-- Observable outcome of one full execution of `ViconWrapper.run`. -/
structure RunResult where
  /-- Final contents of `self.position_log`. -/
  positionLog : List Record
  /-- All latency-accounting log lines emitted (line 105). -/
  latencyLines : List (ℚ × ℚ × ℚ)
  /-- Number of occlusion warnings emitted (line 109). -/
  warns : Nat
  /-- Contents of the persisted log file, `none` if no file was written. -/
  persisted : Option (List Record)
  /-- Whether `client.disconnect()` was called. -/
  disconnected : Bool
  /-- Whether an exception escaped `run` (kills the worker thread). -/
  excPropagated : Bool
  /-- The cleanup steps of the `finally` block, in execution order. -/
  cleanupActions : List CleanupAction
  deriving DecidableEq

/-- One device-backed session: construction-time configuration plus the
environment behaviour during the run.  `connectOk` is whether
`client.connect(VICON_ADDRESS)` (line 37) succeeds; `events` are the oracle
answers for the loop iterations that complete before the streaming phase
ends; `exitKind` is how it ends; `persistOk` is whether the `open`/`json.dump`
of lines 123-124 succeeds (e.g. whether `logs/` is writable). -/
structure DeviceSession where
  labeled : Bool
  cb : Option Callback
  connectOk : Bool
  events : List (Option FrameData × ℚ)
  exitKind : ExitKind
  persistOk : Bool

/-- `ViconWrapper.run` (src/vicon.py lines 29-129).  The `try:` block connects
and streams; if `connect` raises, the streaming loop never runs.  Both
`except` clauses (lines 114-117) only log, so the streamed observables do not
depend on `exitKind`.  The `finally` block (lines 119-129) first performs the
persistence write (lines 120-125); if that write raises, the raised exception
aborts the `finally` block, so `client.disconnect()` is never reached and the
exception propagates out of `run`.  If the write succeeds, `disconnect` is
called exactly when `client.is_connected()` — i.e. when the connect succeeded
(nothing disconnects earlier). -/
def ViconWrapper.run (s : DeviceSession) : RunResult :=
  let streamed := if s.connectOk then streamLoop s.labeled s.cb s.events else ⟨[], [], 0⟩
  if s.persistOk then
    { positionLog := streamed.recs
      latencyLines := streamed.lines
      warns := streamed.warns
      persisted := some streamed.recs
      disconnected := s.connectOk
      excPropagated := false
      cleanupActions := CleanupAction.persistAttempt ::
        (if s.connectOk then [CleanupAction.disconnectCall] else []) }
  else
    { positionLog := streamed.recs
      latencyLines := streamed.lines
      warns := streamed.warns
      persisted := none
      disconnected := false
      excPropagated := true
      cleanupActions := [CleanupAction.persistAttempt] }

/-- What the controlling thread can observe about the worker after calling
`stop()`: that the worker has finished (`self.join()` returned) and the
worker's completed outcome. -/
structure ControllerView where
  workerDone : Bool
  result : RunResult

/-- `ViconWrapper.stop` (src/vicon.py lines 25-27): `self.running = False;
self.join()`.  Clearing the flag is reflected in `s.events` already listing
exactly the iterations that completed before the worker observed the cleared
flag (`s.exitKind = normalStop`); `join()` blocks until `run` has returned, so
the first `stop()` call yields the worker's completed result.  A later
`stop()` call sees an already-finished worker: clearing the flag again and
joining a finished thread change nothing, which the model expresses by
returning the existing view unchanged. -/
def ViconWrapper.stop (s : DeviceSession) (v : Option ControllerView) : ControllerView :=
  match v with
  | none => { workerDone := true, result := ViconWrapper.run s }
  | some w => w

/-- One synthetic session (`VirtualViconWrapper`).  The callback is called
with a single 6-element list (line 160) and its return value is discarded;
`times` are the `time.time()` values of the completed loop iterations;
`exitKind` and `persistOk` as for the device variant. -/
structure VirtualSession where
  cb : Option (List ℚ → ℚ)
  times : List ℚ
  exitKind : ExitKind
  persistOk : Bool

/-- The `while self.running:` body of `VirtualViconWrapper.run` (src/vicon.py
lines 148-162) applied to each remaining iteration.  `n0` is the current value
of `frame_num` (initialised to 0 at line 147 and incremented at the top of the
body), so the records get frame ids `n0+1, n0+2, ...`; every record has
`tvec = [0, 0, 10]`, `vel = [1, 1, 1]` and `time = t * 1000`.  The callback is
invoked with `[pos_x, pos_y, pos_z, vel_x, vel_y, vel_z]` but its return value
is bound to nothing, so it leaves no observable in this pure model. -/
def virtualLoop (n0 : Nat) : List ℚ → List Record
  | [] => []
  | t :: rest =>
    { frame_id := n0 + 1, tvec := (0, 0, 10), rvec := none,
      vel := some (1, 1, 1), time := t * 1000 } :: virtualLoop (n0 + 1) rest

/-- Observable outcome of one full execution of `VirtualViconWrapper.run`.
The run body contains no latency-accounting log statement at all (the
callback result is discarded at line 160), so `latencyLines` is constantly
empty. -/
structure VRunResult where
  positionLog : List Record
  latencyLines : List (ℚ × ℚ × ℚ)
  persisted : Option (List Record)
  excPropagated : Bool
  deriving DecidableEq

/-- `VirtualViconWrapper.run` (src/vicon.py lines 143-170).  The function has
no `try`/`finally`: the persistence write (lines 165-170) lives in the `else`
clause of the `while` statement, which Python executes only when the loop
terminates because its condition became false — i.e. only on a normal stop.
An exception (or `KeyboardInterrupt`) raised during the loop skips the `else`
clause entirely and propagates out of `run`, and a failing write in the
`else` clause also propagates. -/
def VirtualViconWrapper.run (s : VirtualSession) : VRunResult :=
  let log := virtualLoop 0 s.times
  if s.exitKind = ExitKind.normalStop then
    if s.persistOk then
      { positionLog := log, latencyLines := [], persisted := some log, excPropagated := false }
    else
      { positionLog := log, latencyLines := [], persisted := none, excPropagated := true }
  else
    { positionLog := log, latencyLines := [], persisted := none, excPropagated := true }

/-!
Embedding of `src/latency_analyse.py`.

The regex `System Latency: ([\d.]+) ms\. FC Latency: ([\d.]+), Vicon
Latency: ([\d.]+)` (line 10) consists of fixed literals and three greedy
character classes `[\d.]+`.  Each class is followed either by a literal whose
first character (`' '` or `','`) lies outside the class, or by the end of the
pattern, so a maximal-munch matcher without backtracking computes exactly the
same matches and captures as the Python `re` engine, and
`pattern.findall(log_text)` is the usual left-to-right non-overlapping scan.
-/

/-- Membership in the character class `[\d.]`. -/
def patChar (c : Char) : Bool := c.isDigit || c = '.'

/-- Match a literal pattern fragment as a prefix, returning the rest. -/
def litMatch : List Char → List Char → Option (List Char)
  | [], s => some s
  | _ :: _, [] => none
  | p :: ps, c :: cs => if p = c then litMatch ps cs else none

/-- Greedy `[\d.]+`: the maximal nonempty prefix of class characters, with
the rest of the input. -/
def numMatch (s : List Char) : Option (List Char × List Char) :=
  let g := s.takeWhile patChar
  if g.isEmpty then none else some (g, s.drop g.length)

/-- Attempt to match the whole pattern at the current position, returning the
three captures and the input remaining after the match. -/
def matchHere (s : List Char) : Option ((List Char × List Char × List Char) × List Char) := do
  let s ← litMatch "System Latency: ".toList s
  let (g1, s) ← numMatch s
  let s ← litMatch " ms. FC Latency: ".toList s
  let (g2, s) ← numMatch s
  let s ← litMatch ", Vicon Latency: ".toList s
  let (g3, s) ← numMatch s
  some ((g1, g2, g3), s)

/-- Left-to-right non-overlapping scan, fuelled for termination: at each
position try the pattern; on success emit the captures and resume after the
match, otherwise advance one character.  Every step consumes at least one
character, so fuel `length + 1` reproduces `pattern.findall`. -/
def findallFuel : Nat → List Char → List (List Char × List Char × List Char)
  | 0, _ => []
  | _ + 1, [] => []
  | fuel + 1, c :: cs =>
    match matchHere (c :: cs) with
    | some (caps, rest) => caps :: findallFuel fuel rest
    | none => findallFuel fuel cs

/-- `pattern.findall(log_text)` (src/latency_analyse.py line 11). -/
def findall (t : List Char) : List (List Char × List Char × List Char) :=
  findallFuel (t.length + 1) t

/-- Decimal value of a digit string. -/
def digitsVal (ds : List Char) : Nat := ds.foldl (fun a c => a * 10 + (c.toNat - 48)) 0

/-- Decompose a `[\d.]+` capture the way Python `float` parses it: either all
digits, or digits-dot-digits (one part may be empty, not both).  Returns
`(integer part, fraction digits value, fraction length)`; `none` where
`float(...)` would raise `ValueError` (several dots, or a lone dot). -/
def parseParts (s : List Char) : Option (Nat × Nat × Nat) :=
  match List.splitOn '.' s with
  | [ip] => if ip.isEmpty then none else some (digitsVal ip, 0, 0)
  | [ip, fp] =>
    if ip.isEmpty && fp.isEmpty then none
    else some (digitsVal ip, digitsVal fp, fp.length)
  | _ => none

/-- Rational value of a decomposed decimal. -/
def ratOfParts : Nat × Nat × Nat → ℚ
  | (i, f, n) => (i : ℚ) + (f : ℚ) / (10 : ℚ) ^ n

/-- `float(capture)`, as applied column-wise by `.astype(float)`
(src/latency_analyse.py line 14). -/
def parseFloat (s : List Char) : Option ℚ := (parseParts s).map ratOfParts

/-- The per-column summary produced at lines 17-22. -/
structure ColStats where
  min : ℚ
  max : ℚ
  avg : ℚ
  deriving DecidableEq

/-- `df[col].min()`, `df[col].max()`, `df[col].mean()` for one column; `none`
for an empty column (zero matches is undefined behaviour for the analyzer). -/
def colStats (xs : List ℚ) : Option ColStats :=
  match xs with
  | [] => none
  | x :: rest =>
    some { min := rest.foldl Min.min x
           max := rest.foldl Max.max x
           avg := (x :: rest).sum / ((x :: rest).length : ℚ) }

/-- Column-wise `.astype(float)`: convert every capture of one column,
failing (as `astype` raises `ValueError`) if any single conversion fails. -/
def parseCol : List (List Char) → Option (List ℚ)
  | [] => some []
  | s :: rest =>
    match parseFloat s, parseCol rest with
    | some q, some qs => some (q :: qs)
    | _, _ => none

/-- The whole analyzer (src/latency_analyse.py lines 10-22): find all matches,
convert the three capture columns to floats (`none` if any conversion raises),
and summarise each column.  Column order: System Latency, FC Latency, Vicon
Latency. -/
def analyze (text : List Char) : Option (ColStats × ColStats × ColStats) :=
  let ms := findall text
  match parseCol (ms.map (·.1)), parseCol (ms.map (·.2.1)), parseCol (ms.map (·.2.2)) with
  | some sys, some fc, some vic =>
    match colStats sys, colStats fc, colStats vic with
    | some s1, some s2, some s3 => some (s1, s2, s3)
    | _, _, _ => none
  | _, _, _ => none

/-!  Helper lemmas about the embedded operations. -/

/-- The frame numbers the tracking source delivered during the session, in
order: one per iteration whose `get_frame()` succeeded. -/
def traceFrameIds (events : List (Option FrameData × ℚ)) : List Nat :=
  events.filterMap (fun e => e.1.map FrameData.frameNum)

theorem traceFrameIds_cons (d : Option FrameData) (t : ℚ) (rest : List (Option FrameData × ℚ)) :
    traceFrameIds ((d, t) :: rest)
      = (Option.map FrameData.frameNum d).toList ++ traceFrameIds rest := by
  cases d <;> simp [traceFrameIds]

theorem streamIter_ids_sublist (labeled : Bool) (cb : Option Callback) (d : Option FrameData)
    (t : ℚ) :
    List.Sublist ((streamIter labeled cb d t).recs.map Record.frame_id)
      ((Option.map FrameData.frameNum d).toList) := by
  cases d with
  | none => simp [streamIter]
  | some fd =>
    simp only [streamIter]
    by_cases hc : (if labeled = true then fd.subjectCount else fd.unlabeledCount) = some 1
    · rw [if_pos hc]
      rcases hx : extractPose labeled fd with ⟨tr, rot⟩
      cases tr with
      | none => simp
      | some xyz =>
        obtain ⟨x, y, z⟩ := xyz
        simp
    · rw [if_neg hc]
      simp

theorem streamLoop_ids_sublist (labeled : Bool) (cb : Option Callback) :
    ∀ events : List (Option FrameData × ℚ),
      List.Sublist ((streamLoop labeled cb events).recs.map Record.frame_id)
        (traceFrameIds events)
  | [] => by simp [streamLoop, traceFrameIds]
  | (d, t) :: rest => by
    rw [traceFrameIds_cons]
    have h1 := streamIter_ids_sublist labeled cb d t
    have h2 := streamLoop_ids_sublist labeled cb rest
    simpa [streamLoop] using h1.append h2

theorem streamIter_rvec (labeled : Bool) (cb : Option Callback) (d : Option FrameData) (t : ℚ) :
    (streamIter labeled cb d t).recs.map Record.rvec
      = List.replicate (streamIter labeled cb d t).recs.length none := by
  cases d with
  | none => simp [streamIter]
  | some fd =>
    simp only [streamIter]
    by_cases hc : (if labeled = true then fd.subjectCount else fd.unlabeledCount) = some 1
    · rw [if_pos hc]
      rcases hx : extractPose labeled fd with ⟨tr, rot⟩
      cases tr with
      | none => simp
      | some xyz =>
        obtain ⟨x, y, z⟩ := xyz
        simp
    · rw [if_neg hc]
      simp

theorem streamLoop_rvec (labeled : Bool) (cb : Option Callback) :
    ∀ events : List (Option FrameData × ℚ),
      (streamLoop labeled cb events).recs.map Record.rvec
        = List.replicate (streamLoop labeled cb events).recs.length none
  | [] => by simp [streamLoop]
  | (d, t) :: rest => by
    have h1 := streamIter_rvec labeled cb d t
    have h2 := streamLoop_rvec labeled cb rest
    simp only [streamLoop, List.map_append, List.length_append, List.replicate_add]
    rw [h1, h2]

theorem virtualLoop_length (n0 : Nat) : ∀ ts : List ℚ, (virtualLoop n0 ts).length = ts.length
  | [] => rfl
  | t :: rest => by simp [virtualLoop, virtualLoop_length (n0 + 1) rest]

theorem virtualLoop_map_id : ∀ (n0 : Nat) (ts : List ℚ),
    (virtualLoop n0 ts).map Record.frame_id = List.range' (n0 + 1) ts.length
  | _, [] => by simp [virtualLoop]
  | n0, t :: rest => by
    rw [List.length_cons, List.range'_succ]
    simp [virtualLoop, virtualLoop_map_id (n0 + 1) rest]

theorem virtualLoop_map_tvec (n0 : Nat) : ∀ ts : List ℚ,
    (virtualLoop n0 ts).map Record.tvec = List.replicate ts.length (0, 0, 10)
  | [] => rfl
  | t :: rest => by simp [virtualLoop, virtualLoop_map_tvec (n0 + 1) rest, List.replicate_succ]

theorem virtualLoop_rvec (n0 : Nat) : ∀ ts : List ℚ,
    (virtualLoop n0 ts).map Record.rvec = List.replicate ts.length none
  | [] => rfl
  | t :: rest => by simp [virtualLoop, virtualLoop_rvec (n0 + 1) rest, List.replicate_succ]

/-!  Claim theorems. -/

/-- Claim C1, counterexample.  The claim states that in the Stopping phase the
session disconnect is attempted first and Persistence second, and that a
failing Persistence write is logged while the disconnect still happens and no
exception propagates.  The code does the opposite: in a normal run the
`finally` block performs the persistence write before the disconnect, and in a
run whose persistence write fails the disconnect is skipped and the exception
propagates out of the worker. -/
theorem spec_C1_counterexample :
    (ViconWrapper.run ⟨false, none, true, [], ExitKind.normalStop, true⟩).cleanupActions
      = [CleanupAction.persistAttempt, CleanupAction.disconnectCall]
    ∧ (ViconWrapper.run ⟨false, none, true, [], ExitKind.normalStop, false⟩).disconnected = false
    ∧ (ViconWrapper.run ⟨false, none, true, [], ExitKind.normalStop, false⟩).excPropagated = true
    ∧ (ViconWrapper.run ⟨false, none, true, [], ExitKind.normalStop, false⟩).persisted = none := by
  decide

/-- Claim C1, amended.  In the Stopping phase, for every exit from Streaming
(normal stop, error, or interruption), Persistence is invoked first with the
current Position Log and only then — if the session is still connected — the
disconnect is performed; when the Persistence write fails, nothing is
persisted, the disconnect is skipped, and the exception propagates out of the
worker. -/
theorem spec_C1_amended (s : DeviceSession) :
    (ViconWrapper.run s).cleanupActions.head? = some CleanupAction.persistAttempt
    ∧ (ViconWrapper.run s).persisted
      = (if s.persistOk then some (ViconWrapper.run s).positionLog else none)
    ∧ (ViconWrapper.run s).disconnected = (s.persistOk && s.connectOk)
    ∧ (ViconWrapper.run s).excPropagated = !s.persistOk := by
  rcases s with ⟨labeled, cb, co, events, ek, pk⟩
  cases pk <;> cases co <;> simp [ViconWrapper.run]

/-- Claim C2, counterexample.  The claim states that for every session of
either variant and every exit path the accumulated Position Log is flushed to
a durable file before the worker terminates.  A synthetic session that exits
via an unexpected exception (with a perfectly writable destination and a
nonempty log) persists nothing: the flush sits in the `while`/`else` clause,
which an exception skips. -/
theorem spec_C2_counterexample :
    (VirtualViconWrapper.run ⟨none, [0], ExitKind.unexpectedError, true⟩).persisted = none
    ∧ (VirtualViconWrapper.run ⟨none, [0], ExitKind.unexpectedError, true⟩).positionLog ≠ [] := by
  decide

/-- Claim C2, amended.  The device-backed variant flushes the Position Log on
every exit path (normal stop, exception, interruption), provided the write
itself succeeds; in particular a session whose connect fails immediately still
writes an empty log file.  The synthetic variant flushes only on a normal
stop: an exception or interruption during its loop terminates the worker
without writing any file. -/
theorem spec_C2_amended :
    (∀ (labeled : Bool) (cb : Option Callback) (co : Bool)
        (events : List (Option FrameData × ℚ)) (ek : ExitKind),
      (ViconWrapper.run ⟨labeled, cb, co, events, ek, true⟩).persisted
        = some (ViconWrapper.run ⟨labeled, cb, co, events, ek, true⟩).positionLog)
    ∧ (∀ (labeled : Bool) (cb : Option Callback)
        (events : List (Option FrameData × ℚ)) (ek : ExitKind),
      (ViconWrapper.run ⟨labeled, cb, false, events, ek, true⟩).positionLog = [])
    ∧ (∀ vs : VirtualSession,
      (VirtualViconWrapper.run vs).persisted
        = (if vs.exitKind = ExitKind.normalStop then
            (if vs.persistOk then some (VirtualViconWrapper.run vs).positionLog else none)
          else none)) := by
  refine ⟨?_, ?_, ?_⟩
  · intro labeled cb co events ek
    simp [ViconWrapper.run]
  · intro labeled cb events ek
    simp [ViconWrapper.run]
  · rintro ⟨cb, times, ek, pk⟩
    cases ek <;> cases pk <;> simp [VirtualViconWrapper.run]

/-- Claim C4 (confirmed).  Running the Synthetic Pose Generator for exactly
`N = times.length` loop iterations and then stopping it persists exactly `N`
Frame Records, with `frame_id` values `1, 2, ..., N` in order and `tvec`
equal to `(0, 0, 10)` in every record. -/
theorem spec_C4 (cb : Option (List ℚ → ℚ)) (times : List ℚ) :
    (VirtualViconWrapper.run ⟨cb, times, ExitKind.normalStop, true⟩).persisted
      = some (VirtualViconWrapper.run ⟨cb, times, ExitKind.normalStop, true⟩).positionLog
    ∧ (VirtualViconWrapper.run ⟨cb, times, ExitKind.normalStop, true⟩).positionLog.length
      = times.length
    ∧ (VirtualViconWrapper.run ⟨cb, times, ExitKind.normalStop, true⟩).positionLog.map
        Record.frame_id = List.range' 1 times.length
    ∧ (VirtualViconWrapper.run ⟨cb, times, ExitKind.normalStop, true⟩).positionLog.map
        Record.tvec = List.replicate times.length (0, 0, 10) := by
  refine ⟨?_, ?_, ?_, ?_⟩ <;>
    simp [VirtualViconWrapper.run, virtualLoop_length, virtualLoop_map_id, virtualLoop_map_tvec]

/-- Claim C8, counterexample.  The claim quantifies over every session, but
the "exactly one disconnect attempt and exactly one persistence write, with
the log file written before `stop()` returns" part fails outside the happy
path.  A session whose persistence write fails performs zero disconnect calls
(the `finally` block aborts before reaching `client.is_connected()`), and
after `stop()` returns no log file has been written.  A session whose connect
fails performs zero disconnect calls even though its write succeeds. -/
theorem spec_C8_counterexample :
    (ViconWrapper.run ⟨false, none, true, [], ExitKind.normalStop, false⟩).cleanupActions.count
        CleanupAction.disconnectCall = 0
    ∧ (ViconWrapper.stop ⟨false, none, true, [], ExitKind.normalStop, false⟩ none).workerDone
      = true
    ∧ (ViconWrapper.stop ⟨false, none, true, [], ExitKind.normalStop, false⟩ none).result.persisted
      = none
    ∧ (ViconWrapper.run ⟨false, none, false, [], ExitKind.normalStop, true⟩).cleanupActions.count
        CleanupAction.disconnectCall = 0 := by
  decide

/-- Claim C8, amended.  For every session, `stop()` is idempotent and
blocking: a second `stop()` changes nothing, and `stop()` does not return
until the worker has fully finished its cleanup, so the caller sees the
worker's completed outcome.  The worker performs exactly one persistence
attempt per session regardless of how many times `stop()` is called; exactly
one disconnect call follows when the write succeeded and the session had
connected, and otherwise no disconnect call happens at all; the log file
exists when `stop()` returns exactly when the write succeeded. -/
theorem spec_C8_amended (s : DeviceSession) :
    ViconWrapper.stop s (some (ViconWrapper.stop s none)) = ViconWrapper.stop s none
    ∧ (ViconWrapper.stop s none).workerDone = true
    ∧ (ViconWrapper.stop s none).result = ViconWrapper.run s
    ∧ (ViconWrapper.run s).cleanupActions.count CleanupAction.persistAttempt = 1
    ∧ (ViconWrapper.run s).cleanupActions.count CleanupAction.disconnectCall
      = (if s.persistOk && s.connectOk then 1 else 0)
    ∧ (ViconWrapper.stop s none).result.persisted
      = (if s.persistOk then some (ViconWrapper.run s).positionLog else none) := by
  refine ⟨rfl, rfl, rfl, ?_, ?_, ?_⟩ <;>
    rcases s with ⟨labeled, cb, co, events, ek, pk⟩ <;>
    cases pk <;> cases co <;>
    simp [ViconWrapper.run, ViconWrapper.stop, List.count_cons] <;>
    decide

/-- Claim C3, counterexample.  The claim quantifies over both variants, but in
the synthetic variant the callback's return value is discarded: the concrete
synthetic session below has a callback reporting a latency of `5 > 0` for its
one successfully captured frame, yet no latency-accounting line is emitted. -/
theorem spec_C3_counterexample :
    (fun _ : List ℚ => (5 : ℚ)) [0, 0, 10, 1, 1, 1] = 5
    ∧ (0 : ℚ) < 5
    ∧ (VirtualViconWrapper.run
        ⟨some (fun _ : List ℚ => (5 : ℚ)), [0], ExitKind.normalStop, true⟩).positionLog.length = 1
    ∧ (VirtualViconWrapper.run
        ⟨some (fun _ : List ℚ => (5 : ℚ)), [0], ExitKind.normalStop, true⟩).latencyLines = [] := by
  refine ⟨rfl, by norm_num, ?_, ?_⟩ <;> decide

/-- Claim C3, amended.  In the device-backed variant, for every successfully
captured frame a latency-accounting line is emitted if and only if the
callback's reported latency is strictly positive, and the logged total equals
`reported + 1000 * source` exactly; a frame that is occluded or skipped emits
no line; a zero or negative reported latency emits no line and no error.  In
the synthetic variant the callback's return value is discarded and no
latency-accounting line is ever emitted, whatever the callback reports. -/
theorem spec_C3_amended :
    (∀ (labeled : Bool) (cb : Option Callback) (fd : FrameData) (t x y z : ℚ)
        (rot : Option (ℚ × ℚ × ℚ)),
      (if labeled = true then fd.subjectCount else fd.unlabeledCount) = some 1 →
      extractPose labeled fd = (some (x, y, z), rot) →
      (streamIter labeled cb (some fd) t).lines
        = (if 0 < fcLatencyOf cb x y z rot t then
            [(fcLatencyOf cb x y z rot t + fd.latencyTotal * 1000,
              fcLatencyOf cb x y z rot t, fd.latencyTotal * 1000)]
          else []))
    ∧ (∀ (labeled : Bool) (cb : Option Callback) (fd : FrameData) (t : ℚ),
      (extractPose labeled fd).1 = none
        ∨ (if labeled = true then fd.subjectCount else fd.unlabeledCount) ≠ some 1 →
      (streamIter labeled cb (some fd) t).lines = [])
    ∧ (∀ vs : VirtualSession, (VirtualViconWrapper.run vs).latencyLines = []) := by
  refine ⟨?_, ?_, ?_⟩
  · intro labeled cb fd t x y z rot hc hx
    simp only [streamIter]
    rw [if_pos hc, hx]
  · intro labeled cb fd t h
    rcases h with h | h
    · simp only [streamIter]
      by_cases hc : (if labeled = true then fd.subjectCount else fd.unlabeledCount) = some 1
      · rw [if_pos hc]
        rcases hx : extractPose labeled fd with ⟨tr, rot⟩
        rw [hx] at h
        cases tr with
        | none => simp
        | some xyz => simp at h
      · rw [if_neg hc]
    · simp only [streamIter]
      rw [if_neg h]
  · rintro ⟨cb, times, ek, pk⟩
    cases ek <;> cases pk <;> simp [VirtualViconWrapper.run]

/-- Witness for C3: a concrete device-mode frame whose callback reports a
latency of 7 ms while the source reports 2 s, producing exactly one line with
total `7 + 2 * 1000 = 2007` ms. -/
theorem spec_C3_witness :
    (streamIter false
        (some ⟨fun _ _ _ _ _ _ _ => 0, fun _ _ _ _ => 7⟩)
        (some ⟨11, none, some 1, none, none, none, some (1, 2, 3), 2⟩) 0).lines
      = [(2007, 7, 2000)] := by
  have h := spec_C3_amended.1 false
    (some ⟨fun _ _ _ _ _ _ _ => 0, fun _ _ _ _ => 7⟩)
    ⟨11, none, some 1, none, none, none, some (1, 2, 3), 2⟩ 0 1 2 3 none
    (by decide) (by decide)
  rw [h]
  norm_num [fcLatencyOf]

/-- The occlusion-free device trace used to refute C5: the tracking source
delivers frame 1 and then frame 3, each with exactly one visible unlabeled
marker and a valid translation. -/
def gapSession : DeviceSession :=
  ⟨false, none, true,
    [(some ⟨1, none, some 1, none, none, none, some (0, 0, 0), 0⟩, 0),
     (some ⟨3, none, some 1, none, none, none, some (0, 0, 0), 0⟩, 0)],
    ExitKind.normalStop, true⟩

/-- Claim C5, counterexample.  The claim says `frame_id` advances by exactly 1
per successfully captured frame and that gaps occur only across occluded
frames.  In the device variant `frame_id` is the source's own frame number:
in the session `gapSession` two consecutive successfully captured frames have
ids 1 and 3 while no occluded frame was ever polled (zero warnings). -/
theorem spec_C5_counterexample :
    (ViconWrapper.run gapSession).positionLog.map Record.frame_id = [1, 3]
    ∧ (ViconWrapper.run gapSession).warns = 0 := by
  decide

/-- Claim C5, amended.  In the synthetic variant, persisted `frame_id` values
are exactly `1, 2, ..., N` (strictly increasing, advancing by exactly 1).  In
the device variant, `frame_id` is copied from the source's frame number, so
the persisted values are strictly increasing with no duplicates provided the
source delivers strictly increasing frame numbers; gaps, however, can also
arise from source-side frame skipping or from polls whose visible-entity
count differs from 1, not only across occluded frames. -/
theorem spec_C5_amended :
    (∀ s : DeviceSession,
      (traceFrameIds s.events).Pairwise (· < ·) →
      ((ViconWrapper.run s).positionLog.map Record.frame_id).Pairwise (· < ·))
    ∧ (∀ vs : VirtualSession,
      (VirtualViconWrapper.run vs).positionLog.map Record.frame_id
        = List.range' 1 vs.times.length) := by
  constructor
  · rintro ⟨labeled, cb, co, events, ek, pk⟩ h
    cases pk <;> cases co <;> simp [ViconWrapper.run] <;>
      exact h.sublist (streamLoop_ids_sublist labeled cb events)
  · rintro ⟨cb, times, ek, pk⟩
    cases ek <;> cases pk <;> simp [VirtualViconWrapper.run, virtualLoop_map_id]

/-- Witness for C5: the device part applied to `gapSession` (whose source
frame numbers 1, 3 are strictly increasing) yields a strictly increasing
persisted id sequence, and the synthetic part applied to a concrete
three-iteration session. -/
theorem spec_C5_witness :
    ((ViconWrapper.run gapSession).positionLog.map Record.frame_id).Pairwise (· < ·)
    ∧ (VirtualViconWrapper.run ⟨none, [0, 0, 0], ExitKind.normalStop, true⟩).positionLog.map
        Record.frame_id = List.range' 1 3 :=
  ⟨spec_C5_amended.1 gapSession (by decide),
   spec_C5_amended.2 ⟨none, [0, 0, 0], ExitKind.normalStop, true⟩⟩

/-- The labeled-mode device session used to refute C6: orientation tracking is
enabled, the subject is visible, and the source reports the Euler rotation
`(4, 5, 6)` for the captured frame. -/
def labeledRotSession : DeviceSession :=
  ⟨true, none, true,
    [(some ⟨7, some 1, none, some "drone", some (1, 2, 3), some (4, 5, 6), none, 0⟩, 0)],
    ExitKind.normalStop, true⟩

/-- Claim C6, counterexample.  The claim says that with orientation tracking
enabled and a rotation available every persisted Frame Record contains an
`rvec` field with the Euler angles.  In `labeledRotSession` the rotation
`(4, 5, 6)` is available (it is extracted and would be handed to a callback),
yet the one persisted record carries no `rvec`: the dict written to the log
has only `frame_id`, `tvec` and `time` keys. -/
theorem spec_C6_counterexample :
    (extractPose true ⟨7, some 1, none, some "drone", some (1, 2, 3), some (4, 5, 6), none, 0⟩).2
      = some (4, 5, 6)
    ∧ (ViconWrapper.run labeledRotSession).positionLog.map Record.rvec = [none] := by
  decide

/-- Claim C6, amended.  Persisted Frame Records never contain an `rvec`
field, in either variant and in either tracking mode: the rotation, when
extracted in labeled-object mode, is only passed to the callback and is not
persisted. -/
theorem spec_C6_amended :
    (∀ s : DeviceSession,
      (ViconWrapper.run s).positionLog.map Record.rvec
        = List.replicate (ViconWrapper.run s).positionLog.length none)
    ∧ (∀ vs : VirtualSession,
      (VirtualViconWrapper.run vs).positionLog.map Record.rvec
        = List.replicate (VirtualViconWrapper.run vs).positionLog.length none) := by
  constructor
  · rintro ⟨labeled, cb, co, events, ek, pk⟩
    cases pk <;> cases co <;> simp [ViconWrapper.run] <;>
      exact streamLoop_rvec labeled cb events
  · rintro ⟨cb, times, ek, pk⟩
    cases ek <;> cases pk <;>
      simp [VirtualViconWrapper.run, virtualLoop_rvec, virtualLoop_length]

/-- The unlabeled-mode device session used to refute C7: the source reports
zero visible unlabeled markers for its one delivered frame. -/
def zeroCountSession : DeviceSession :=
  ⟨false, none, true, [(some ⟨9, none, some 0, none, none, none, none, 0⟩, 0)],
    ExitKind.normalStop, true⟩

/-- Claim C7, counterexample.  The claim says every occluded poll — including
one with zero visible tracked entities — logs a warning.  In
`zeroCountSession` the only poll has entity count 0: nothing is appended and
the loop continues, but no warning is logged (the warning branch fires only
when the count is 1 and no translation can be extracted). -/
theorem spec_C7_counterexample :
    (ViconWrapper.run zeroCountSession).warns = 0
    ∧ (ViconWrapper.run zeroCountSession).positionLog = [] := by
  decide

/-- Claim C7, amended.  An occluded poll never appends a Frame Record and
never terminates the loop (the remaining iterations produce exactly what they
would have produced anyway), but the occlusion warning is logged only in the
entity-count-1, no-extractable-translation case; a poll whose visible-entity
count is not 1 (for instance zero visible entities) is skipped silently,
without a warning. -/
theorem spec_C7_amended :
    (∀ (labeled : Bool) (cb : Option Callback) (fd : FrameData) (t : ℚ)
        (rest : List (Option FrameData × ℚ)),
      (if labeled = true then fd.subjectCount else fd.unlabeledCount) = some 1 →
      (extractPose labeled fd).1 = none →
      (streamLoop labeled cb ((some fd, t) :: rest)).recs = (streamLoop labeled cb rest).recs
      ∧ (streamLoop labeled cb ((some fd, t) :: rest)).warns
        = 1 + (streamLoop labeled cb rest).warns)
    ∧ (∀ (labeled : Bool) (cb : Option Callback) (fd : FrameData) (t : ℚ)
        (rest : List (Option FrameData × ℚ)),
      (if labeled = true then fd.subjectCount else fd.unlabeledCount) ≠ some 1 →
      (streamLoop labeled cb ((some fd, t) :: rest)).recs = (streamLoop labeled cb rest).recs
      ∧ (streamLoop labeled cb ((some fd, t) :: rest)).warns
        = (streamLoop labeled cb rest).warns) := by
  constructor
  · intro labeled cb fd t rest hc hx
    have hit : streamIter labeled cb (some fd) t = ⟨[], [], 1⟩ := by
      simp only [streamIter]
      rw [if_pos hc]
      rcases hp : extractPose labeled fd with ⟨tr, rot⟩
      rw [hp] at hx
      cases tr with
      | none => rfl
      | some xyz => simp at hx
    simp [streamLoop, hit]
  · intro labeled cb fd t rest hc
    have hit : streamIter labeled cb (some fd) t = ⟨[], [], 0⟩ := by
      simp only [streamIter]
      rw [if_neg hc]
    simp [streamLoop, hit]

/-- Witness for C7: concrete applications of both parts — an entity-count-1
poll with no extractable translation (one warning, nothing appended) and a
zero-entity-count poll (no warning, nothing appended), each followed by an
empty remainder of the session. -/
theorem spec_C7_witness :
    ((streamLoop false none [(some ⟨5, none, some 1, none, none, none, none, 0⟩, 0)]).recs
        = (streamLoop false none []).recs
      ∧ (streamLoop false none [(some ⟨5, none, some 1, none, none, none, none, 0⟩, 0)]).warns
        = 1 + (streamLoop false none []).warns)
    ∧ ((streamLoop false none [(some ⟨9, none, some 0, none, none, none, none, 0⟩, 0)]).recs
        = (streamLoop false none []).recs
      ∧ (streamLoop false none [(some ⟨9, none, some 0, none, none, none, none, 0⟩, 0)]).warns
        = (streamLoop false none []).warns) :=
  ⟨spec_C7_amended.1 false none ⟨5, none, some 1, none, none, none, none, 0⟩ 0 []
      (by decide) (by decide),
   spec_C7_amended.2 false none ⟨9, none, some 0, none, none, none, none, 0⟩ 0 []
      (by decide)⟩

/-- The sample diagnostic text of claim C9: exactly three matching latency
lines with values `(10, 2, 0.005)`, `(20, 3, 0.01)`, `(30, 4, 0.02)`. -/
def sampleLatencyText : String :=
  "System Latency: 10 ms. FC Latency: 2, Vicon Latency: 0.005\nSystem Latency: 20 ms. FC Latency: 3, Vicon Latency: 0.01\nSystem Latency: 30 ms. FC Latency: 4, Vicon Latency: 0.02\n"

/-- Claim C9 (confirmed).  On the sample text the analyzer finds exactly three
matches and reports, for the total-latency (System Latency) column,
`min = 10`, `max = 30`, `mean = 20`. -/
theorem spec_C9 :
    (findall sampleLatencyText.toList).length = 3
    ∧ (analyze sampleLatencyText.toList).map Prod.fst = some ⟨10, 30, 20⟩ := by
  have hf : findall sampleLatencyText.toList =
      [("10".toList, "2".toList, "0.005".toList),
       ("20".toList, "3".toList, "0.01".toList),
       ("30".toList, "4".toList, "0.02".toList)] := by decide
  have p1 : parseFloat "10".toList = some 10 := by
    have h : parseParts "10".toList = some (10, 0, 0) := by decide
    rw [parseFloat, h]; norm_num [ratOfParts]
  have p2 : parseFloat "20".toList = some 20 := by
    have h : parseParts "20".toList = some (20, 0, 0) := by decide
    rw [parseFloat, h]; norm_num [ratOfParts]
  have p3 : parseFloat "30".toList = some 30 := by
    have h : parseParts "30".toList = some (30, 0, 0) := by decide
    rw [parseFloat, h]; norm_num [ratOfParts]
  have p4 : parseFloat "2".toList = some 2 := by
    have h : parseParts "2".toList = some (2, 0, 0) := by decide
    rw [parseFloat, h]; norm_num [ratOfParts]
  have p5 : parseFloat "3".toList = some 3 := by
    have h : parseParts "3".toList = some (3, 0, 0) := by decide
    rw [parseFloat, h]; norm_num [ratOfParts]
  have p6 : parseFloat "4".toList = some 4 := by
    have h : parseParts "4".toList = some (4, 0, 0) := by decide
    rw [parseFloat, h]; norm_num [ratOfParts]
  have p7 : parseFloat "0.005".toList = some (1 / 200) := by
    have h : parseParts "0.005".toList = some (0, 5, 3) := by decide
    rw [parseFloat, h]; norm_num [ratOfParts]
  have p8 : parseFloat "0.01".toList = some (1 / 100) := by
    have h : parseParts "0.01".toList = some (0, 1, 2) := by decide
    rw [parseFloat, h]; norm_num [ratOfParts]
  have p9 : parseFloat "0.02".toList = some (1 / 50) := by
    have h : parseParts "0.02".toList = some (0, 2, 2) := by decide
    rw [parseFloat, h]; norm_num [ratOfParts]
  refine ⟨by rw [hf]; rfl, ?_⟩
  rw [analyze, hf]
  simp only [List.map_cons, List.map_nil, parseCol, p1, p2, p3, p4, p5, p6, p7, p8, p9]
  norm_num [colStats, ColStats.mk.injEq, List.foldl]

/-- A diagnostic line whose third (Vicon Latency) value is written in
scientific notation. -/
def sciThirdLine : String := "System Latency: 10 ms. FC Latency: 2, Vicon Latency: 1e-05"

/-- Claim C10, counterexample.  The claim says a line whose value is written
in scientific notation does not match and is silently excluded.  The line
`sciThirdLine`, whose third value is `1e-05`, DOES match: the greedy `[\d.]+`
at the end of the pattern simply stops at the `e`, capturing `1`, and the
truncated value enters the statistics (the Vicon Latency column reports
min = max = mean = 1). -/
theorem spec_C10_counterexample :
    findall sciThirdLine.toList = [("10".toList, "2".toList, "1".toList)]
    ∧ (analyze sciThirdLine.toList).map (fun r => r.2.2) = some ⟨1, 1, 1⟩ := by
  have hf : findall sciThirdLine.toList = [("10".toList, "2".toList, "1".toList)] := by decide
  have p1 : parseFloat "10".toList = some 10 := by
    have h : parseParts "10".toList = some (10, 0, 0) := by decide
    rw [parseFloat, h]; norm_num [ratOfParts]
  have p2 : parseFloat "2".toList = some 2 := by
    have h : parseParts "2".toList = some (2, 0, 0) := by decide
    rw [parseFloat, h]; norm_num [ratOfParts]
  have p3 : parseFloat "1".toList = some 1 := by
    have h : parseParts "1".toList = some (1, 0, 0) := by decide
    rw [parseFloat, h]; norm_num [ratOfParts]
  refine ⟨hf, ?_⟩
  rw [analyze, hf]
  simp only [List.map_cons, List.map_nil, parseCol, p1, p2, p3]
  norm_num [colStats, ColStats.mk.injEq, List.foldl]

/-- Claim C10, amended.  A minus sign in any of the three values, or
scientific notation in the first or second value, makes the line fail to
match (it is silently excluded, with no error); but scientific notation in
the third value does not exclude the line: the pattern matches with the third
capture truncated at the `e` (`1e-05` is captured as `1`). -/
theorem spec_C10_amended :
    findall "System Latency: -10 ms. FC Latency: 2, Vicon Latency: 0.005".toList = []
    ∧ findall "System Latency: 10 ms. FC Latency: -2, Vicon Latency: 0.005".toList = []
    ∧ findall "System Latency: 10 ms. FC Latency: 2, Vicon Latency: -0.005".toList = []
    ∧ findall "System Latency: 1e-05 ms. FC Latency: 2, Vicon Latency: 0.005".toList = []
    ∧ findall "System Latency: 10 ms. FC Latency: 2e-3, Vicon Latency: 0.005".toList = []
    ∧ findall "System Latency: 10 ms. FC Latency: 2, Vicon Latency: 1e-05".toList
      = [("10".toList, "2".toList, "1".toList)] := by
  refine ⟨?_, ?_, ?_, ?_, ?_, ?_⟩ <;> decide
